import Mathlib

/-!
Shallow embedding of the seed-recommendation backend
(`backend/services/recommendation_engine.py`, `backend/services/climate_service.py`,
`backend/api/farms.py`, `backend/api/seeds.py`, `backend/api/recommendations.py`).

Numbers are modelled as rationals.  Python `None`-able attributes are `Option ℚ`
(or `Option String`), and Python truthiness (`x or d`, `if x and y:`) is modelled
explicitly.  The module-level flag `ML_AVAILABLE` is a `Bool` parameter `ml`:
when it is `false` the name `np` is bound to `None`, so every call of `np.mean`
(or `np.random`) raises `AttributeeError` and lands in the enclosing `except`
handler; the corresponding branches below return exactly what those handlers
return.  External effects (HTTP weather/soil responses, `np.random` draws,
`datetime.now()`) are inputs of the embedding, packaged in `World`.
-/

namespace SeedBank

/-- Python truthiness of a nullable float: `None` and `0.0` are falsy. -/
def truthy (o : Option ℚ) : Bool :=
  match o with
  | none => false
  | some v => v ≠ 0

/-- Python `x or d` for a nullable float `x`: yields `d` when `x` is `None` or `0.0`. -/
def pyOr (o : Option ℚ) (d : ℚ) : ℚ :=
  match o with
  | none => d
  | some v => if v = 0 then d else v

/-- `np.mean` on a list of rationals (callers below guard against the empty list). -/
def npMean (l : List ℚ) : ℚ := l.sum / l.length

/-- `models.database_models.Seed` — the columns the recommendation engine reads.
Nullable columns are `Option`; the tolerance columns are read as plain floats by
the engine, so they are plain rationals here. -/
structure Seed where
  id : ℤ
  variety_name : String
  crop_type : String
  yield_potential : Option ℚ
  drought_tolerance : ℚ
  flood_tolerance : ℚ
  heat_tolerance : ℚ
  cold_tolerance : ℚ
  preferred_ph_min : Option ℚ
  preferred_ph_max : Option ℚ
  nitrogen_requirement : Option String
  phosphorus_requirement : Option String
  potassium_requirement : Option String
  min_rainfall : Option ℚ
  max_rainfall : Option ℚ
  optimal_temp_min : Option ℚ
  optimal_temp_max : Option ℚ
  altitude_min : Option ℚ
  altitude_max : Option ℚ
  market_demand : Option String
  is_available : Bool
deriving DecidableEq

/-- `models.database_models.Farm` — the columns read on the recommendation path. -/
structure Farm where
  id : ℤ
  owner_id : ℤ
  latitude : ℚ
  longitude : ℚ
  elevation : Option ℚ
deriving DecidableEq

/-- `recommendation_engine.EnvironmentalConditions` dataclass. -/
structure EnvironmentalConditions where
  temperature_avg : ℚ
  temperature_range : ℚ
  annual_rainfall : ℚ
  rainfall_variability : ℚ
  humidity_avg : ℚ
  soil_ph : ℚ
  soil_organic_matter : ℚ
  soil_nitrogen : ℚ
  soil_phosphorus : ℚ
  soil_potassium : ℚ
  soil_texture_score : ℚ
  drainage_score : ℚ
  altitude : ℚ
  climate_risk_score : ℚ
deriving DecidableEq

/-- `recommendation_engine.SeedCompatibility` dataclass. -/
structure SeedCompatibility where
  seed_id : ℤ
  compatibility_score : ℚ
  climate_match_score : ℚ
  soil_match_score : ℚ
  yield_prediction : ℚ
  risk_score : ℚ
  confidence_level : ℚ
  reasons : List String
deriving DecidableEq

/-- The preferences dictionary built by the POST recommendations endpoint.
`marketScore` only reads `market_preference`; a `None` (or empty) dict is
`Option.none` at the call sites. -/
structure Preferences where
  budget_constraint : Option ℚ
  risk_tolerance : Option ℚ
  market_preference : Option String
  include_experimental : Bool
deriving DecidableEq

/-- `self.feature_weights` set in `SeedRecommendationEngine.__init__`. -/
structure FeatureWeights where
  climate_compatibility : ℚ
  soil_compatibility : ℚ
  yield_potential : ℚ
  risk_tolerance : ℚ
  market_factors : ℚ
deriving DecidableEq

/-- The literal weights from `__init__`. -/
def feature_weights : FeatureWeights :=
  { climate_compatibility := 3/10
  , soil_compatibility := 25/100
  , yield_potential := 2/10
  , risk_tolerance := 15/100
  , market_factors := 1/10 }

/-- `_score_range_compatibility`: 1.0 inside `[min_val, max_val]`, linear
fall-off (relative to the violated bound) outside, floored at 0. -/
def score_range_compatibility (value min_val max_val : ℚ) : ℚ :=
  if min_val ≤ value ∧ value ≤ max_val then 1
  else if value < min_val then max 0 (1 - (min_val - value) / min_val)
  else max 0 (1 - (value - max_val) / max_val)

/-- `_requirement_to_score`: dict lookup with default 0.6 (a `None` column also
takes the default, since `dict.get(None, 0.6)` misses every key). -/
def requirement_to_score (r : Option String) : ℚ :=
  match r with
  | some "low" => 3/10
  | some "medium" => 6/10
  | some "high" => 9/10
  | _ => 6/10

/-- `_texture_to_score`: dict lookup with default 0.7. -/
def texture_to_score (t : String) : ℚ :=
  match t with
  | "clay" => 4/10
  | "sandy_clay" => 5/10
  | "silty_clay" => 6/10
  | "sandy_clay_loam" => 7/10
  | "clay_loam" => 8/10
  | "silty_clay_loam" => 7/10
  | "sandy_loam" => 8/10
  | "loam" => 1
  | "silt_loam" => 9/10
  | "silt" => 6/10
  | "loamy_sand" => 6/10
  | "sand" => 4/10
  | _ => 7/10

/-- `_drainage_to_score`: dict lookup with default 0.7. -/
def drainage_to_score (d : String) : ℚ :=
  match d with
  | "poor" => 3/10
  | "fair" => 6/10
  | "good" => 8/10
  | "excellent" => 1
  | _ => 7/10

/-- `_calculate_texture_compatibility`. -/
def calculate_texture_compatibility (crop_type : String) (texture_score : ℚ) : ℚ :=
  let preference : ℚ :=
    match crop_type with
    | "maize" => 8/10
    | "beans" => 9/10
    | "cassava" => 7/10
    | "sweet_potato" => 9/10
    | "groundnuts" => 9/10
    | "rice" => 3/10
    | _ => 7/10
  if crop_type = "rice" then 1 - texture_score
  else min 1 (texture_score * preference)

/-- `_calculate_climate_compatibility`.  The guarded range scores are appended
when both bounds are truthy; the drought and flood scores are always appended.
With `ml = false`, `np` is `None`, so `np.mean(scores)` raises and the `except`
handler returns 0.5 (the `if scores else 0.5` default is also 0.5). -/
def calculate_climate_compatibility (ml : Bool) (seed : Seed)
    (env : EnvironmentalConditions) : ℚ :=
  let scores : List ℚ :=
    (if truthy seed.optimal_temp_min ∧ truthy seed.optimal_temp_max then
      [score_range_compatibility env.temperature_avg
        (seed.optimal_temp_min.getD 0) (seed.optimal_temp_max.getD 0)]
     else []) ++
    (if truthy seed.min_rainfall ∧ truthy seed.max_rainfall then
      [score_range_compatibility env.annual_rainfall
        (seed.min_rainfall.getD 0) (seed.max_rainfall.getD 0)]
     else []) ++
    (if truthy seed.altitude_min ∧ truthy seed.altitude_max then
      [score_range_compatibility env.altitude
        (seed.altitude_min.getD 0) (seed.altitude_max.getD 0)]
     else []) ++
    [seed.drought_tolerance * (1 - env.climate_risk_score)] ++
    [1 - |seed.flood_tolerance - max 0 (1 - env.drainage_score)|]
  if scores.isEmpty then 1/2
  else if ml then npMean scores else 1/2

/-- `_calculate_soil_compatibility`; same `np.mean` / fallback structure. -/
def calculate_soil_compatibility (ml : Bool) (seed : Seed)
    (env : EnvironmentalConditions) : ℚ :=
  let scores : List ℚ :=
    (if truthy seed.preferred_ph_min ∧ truthy seed.preferred_ph_max then
      [score_range_compatibility env.soil_ph
        (seed.preferred_ph_min.getD 0) (seed.preferred_ph_max.getD 0)]
     else []) ++
    [1 - |requirement_to_score seed.nitrogen_requirement - min 1 (env.soil_nitrogen / 50)|] ++
    [1 - |requirement_to_score seed.phosphorus_requirement - min 1 (env.soil_phosphorus / 40)|] ++
    [1 - |requirement_to_score seed.potassium_requirement - min 1 (env.soil_potassium / 200)|] ++
    [min 1 (env.soil_organic_matter / 4)] ++
    [calculate_texture_compatibility seed.crop_type env.soil_texture_score]
  if scores.isEmpty then 1/2
  else if ml then npMean scores else 1/2

/-- `_calculate_risk_score`.  With `ml = false` the `np.mean` over the four
tolerances raises and the handler returns 0.5; otherwise the weighted total is
clamped into [0, 1]. -/
def calculate_risk_score (ml : Bool) (seed : Seed)
    (env : EnvironmentalConditions) : ℚ :=
  if ml then
    let adaptation_score := npMean
      [seed.drought_tolerance, seed.flood_tolerance, seed.heat_tolerance, seed.cold_tolerance]
    let climate_mismatch := 1 - calculate_climate_compatibility ml seed env
    let soil_mismatch := 1 - calculate_soil_compatibility ml seed env
    let total_risk :=
      env.climate_risk_score * (3/10) +
      (1 - adaptation_score) * (25/100) +
      climate_mismatch * (2/10) +
      soil_mismatch * (15/100) +
      env.rainfall_variability * (1/10)
    min 1 (max 0 total_risk)
  else 1/2

/-- `_estimate_yield_simple`. -/
def estimate_yield_simple (ml : Bool) (seed : Seed)
    (env : EnvironmentalConditions) : ℚ :=
  let base_yield := pyOr seed.yield_potential 2
  let climate_factor := calculate_climate_compatibility ml seed env
  let soil_factor := calculate_soil_compatibility ml seed env
  let risk_factor := 1 - calculate_risk_score ml seed env
  base_yield * (climate_factor * (4/10) + soil_factor * (4/10) + risk_factor * (2/10))

/-- `_predict_yield`.  The trained sklearn model output is not embeddable, so it
is an abstract input `ml_predict` (`none` models an exception inside the
predictor, which falls back to the simple estimate, as does `not ML_AVAILABLE
or not self.is_trained`). -/
def predict_yield (ml trained : Bool) (ml_predict : Option ℚ) (seed : Seed)
    (env : EnvironmentalConditions) : ℚ :=
  if ¬ml ∨ ¬trained then estimate_yield_simple ml seed env
  else
    match ml_predict with
    | some y => max (1/10) (min y (pyOr seed.yield_potential 5 * (12/10)))
    | none => estimate_yield_simple ml seed env

/-- `_calculate_market_score`.  `none` stands for a `None` (or empty, hence
falsy) preferences dict. -/
def calculate_market_score (seed : Seed) (preferences : Option Preferences) : ℚ :=
  match preferences with
  | none => 7/10
  | some p =>
    let base : ℚ := 7/10
    let bumped :=
      if p.market_preference = some "export" ∧ seed.market_demand = some "high" then
        base + 2/10
      else if p.market_preference = some "local" ∧
          (seed.market_demand = some "medium" ∨ seed.market_demand = some "high") then
        base + 1/10
      else base
    min 1 bumped

/-- `_generate_reasoning`. -/
def generate_reasoning (seed : Seed) (climate_score soil_score risk_score : ℚ) :
    List String :=
  [if climate_score > 8/10 then "Excellent climate match for " ++ seed.variety_name
   else if climate_score > 6/10 then "Good climate compatibility for " ++ seed.variety_name
   else "Climate challenges may affect " ++ seed.variety_name ++ " performance"] ++
  [if soil_score > 8/10 then "Soil conditions are ideal for this variety"
   else if soil_score > 6/10 then "Soil conditions are suitable with minor adjustments"
   else "Soil amendments recommended for optimal performance"] ++
  [if risk_score < 3/10 then "Low risk option with stable performance expected"
   else if risk_score < 6/10 then "Moderate risk with good adaptation potential"
   else "Higher risk option requiring careful management"] ++
  (if seed.drought_tolerance > 7/10 then
    ["High drought tolerance suitable for dry conditions"] else []) ++
  (if truthy seed.yield_potential ∧ seed.yield_potential.getD 0 > 5 then
    ["High yield potential variety"] else [])

/-- `_calculate_confidence_level`: starts at 1.0, subtracts fixed penalties for
missing data and for the untrained state, floored at 0.3. -/
def calculate_confidence_level (trained : Bool) (env : EnvironmentalConditions)
    (seed : Seed) : ℚ :=
  let c : ℚ := 1
  let c := if env.climate_risk_score = 3/10 then c - 1/10 else c
  let c := if ¬truthy seed.yield_potential then c - 1/10 else c
  let c := if ¬truthy seed.optimal_temp_min ∨ ¬truthy seed.optimal_temp_max then c - 1/10 else c
  let c := if ¬trained then c - 2/10 else c
  max (3/10) c

/-- The `try` body of `_analyze_seed_compatibility` (lines 289–332): sub-scores,
yield, market score, the weighted overall score clamped into [0, 1], reasons
and confidence. -/
def analyze_seed_body (ml trained : Bool) (ml_predict : Option ℚ) (seed : Seed)
    (env : EnvironmentalConditions) (preferences : Option Preferences) :
    SeedCompatibility :=
  let climate_score := calculate_climate_compatibility ml seed env
  let soil_score := calculate_soil_compatibility ml seed env
  let yield_prediction :=
    if trained then predict_yield ml trained ml_predict seed env
    else estimate_yield_simple ml seed env
  let risk_score := calculate_risk_score ml seed env
  let market_score := calculate_market_score seed preferences
  let compatibility_score :=
    climate_score * feature_weights.climate_compatibility +
    soil_score * feature_weights.soil_compatibility +
    (yield_prediction / pyOr seed.yield_potential 1) * feature_weights.yield_potential +
    (1 - risk_score) * feature_weights.risk_tolerance +
    market_score * feature_weights.market_factors
  { seed_id := seed.id
  , compatibility_score := min 1 (max 0 compatibility_score)
  , climate_match_score := climate_score
  , soil_match_score := soil_score
  , yield_prediction := yield_prediction
  , risk_score := risk_score
  , confidence_level := calculate_confidence_level trained env seed
  , reasons := generate_reasoning seed climate_score soil_score risk_score }

/-- The `except` result of `_analyze_seed_compatibility` (lines 334–345). -/
def analyze_seed_error_result (seed : Seed) : SeedCompatibility :=
  { seed_id := seed.id
  , compatibility_score := 1/2
  , climate_match_score := 1/2
  , soil_match_score := 1/2
  , yield_prediction := pyOr seed.yield_potential 1
  , risk_score := 1/2
  , confidence_level := 3/10
  , reasons := ["Analysis error occurred"] }

/-- The `try`/`except` frame of `_analyze_seed_compatibility`: `body` is the
outcome of the `try` block (`Except.error` models a raised exception). -/
def analyze_seed_with (seed : Seed) (body : Except String SeedCompatibility) :
    SeedCompatibility :=
  match body with
  | Except.ok c => c
  | Except.error _ => analyze_seed_error_result seed

/-- `_analyze_seed_compatibility`: in the embedding the `try` body is total, so
the frame is applied to an `Except.ok`. -/
def analyze_seed_compatibility (ml trained : Bool) (ml_predict : Option ℚ)
    (seed : Seed) (env : EnvironmentalConditions)
    (preferences : Option Preferences) : SeedCompatibility :=
  analyze_seed_with seed (Except.ok (analyze_seed_body ml trained ml_predict seed env preferences))

/-- The ordering used by `recommendations.sort(key=lambda x:
x.compatibility_score, reverse=True)`: `a` may precede `b` iff
`a.compatibility_score ≥ b.compatibility_score`. -/
def recGE (a b : SeedCompatibility) : Prop :=
  b.compatibility_score ≤ a.compatibility_score

instance : DecidableRel recGE :=
  fun a b => inferInstanceAs (Decidable (b.compatibility_score ≤ a.compatibility_score))

instance : IsTotal SeedCompatibility recGE :=
  ⟨fun a b => le_total b.compatibility_score a.compatibility_score⟩

instance : IsTrans SeedCompatibility recGE :=
  ⟨fun _ _ _ h1 h2 => le_trans h2 h1⟩

/-- The analysis loop of `generate_recommendations` (lines 221–224): one
`_analyze_seed_compatibility` call per seed of the input list, in order. -/
def analyze_all (ml trained : Bool) (ml_predict : Option ℚ)
    (env : EnvironmentalConditions) (seeds : List Seed)
    (preferences : Option Preferences) : List SeedCompatibility :=
  seeds.map (fun seed => analyze_seed_compatibility ml trained ml_predict seed env preferences)

/-- Lines 221–230 of `generate_recommendations`: analyze every seed, stable-sort
by compatibility score descending, keep the top 10. -/
def generate_recommendations_from_env (ml trained : Bool) (ml_predict : Option ℚ)
    (env : EnvironmentalConditions) (seeds : List Seed)
    (preferences : Option Preferences) : List SeedCompatibility :=
  (List.insertionSort recGE (analyze_all ml trained ml_predict env seeds preferences)).take 10

/-- The `try`/`except` frame of `generate_recommendations` (lines 214–234): a
raised exception yields the empty list. -/
def generate_recommendations_with (body : Except String (List SeedCompatibility)) :
    List SeedCompatibility :=
  match body with
  | Except.ok l => l
  | Except.error _ => []

/-! ### The environmental-conditions pipeline

`_analyze_environmental_conditions` consumes external weather and soil data and
synthetic climate projections.  The external responses and the `np.random`
draws are inputs, bundled in `World`. -/

/-- One entry of the `"seasonal"` dict of `get_seasonal_patterns` — the keys the
engine reads (a missing key of the nested `extreme_temps` dict is `none`). -/
structure SeasonalEntry where
  avg_temp : Option ℚ
  extreme_max : Option ℚ
  extreme_min : Option ℚ
  avg_humidity : Option ℚ

/-- One entry of the `"monthly"` dict of `get_seasonal_patterns`. -/
structure MonthEntry where
  avg_rainfall : Option ℚ
  rainfall_variability : Option ℚ

/-- The weather-patterns dict returned by `get_seasonal_patterns` (built from
HTTP or synthetic random data, hence an input).  `seasonal` models the
string-keyed dict; `monthly` models `monthly_data.values()`. -/
structure WeatherPatterns where
  seasonal : String → Option SeasonalEntry
  monthly : List MonthEntry
  annual_total_rainfall : Option ℚ
  annual_rainfall_variability : Option ℚ

/-- `soil_service.SoilData` — the fields `_analyze_environmental_conditions`
reads. -/
structure SoilData where
  ph_level : ℚ
  organic_matter : ℚ
  nitrogen : ℚ
  phosphorus : ℚ
  potassium : ℚ
  texture : String
  drainage : String

/-- `climate_service.ClimateProjection`: the three `extreme_events_probability`
keys are always generated, so they are plain fields. -/
structure ClimateProjection where
  year : ℤ
  temperature_change : ℚ
  precipitation_change : ℚ
  drought_prob : ℚ
  flood_prob : ℚ
  heat_wave_prob : ℚ
  confidence_level : ℚ

/-- The risk dict of `calculate_climate_risks`. -/
structure ClimateRisks where
  drought_risk : ℚ
  flood_risk : ℚ
  temperature_stress_risk : ℚ
  rainfall_variability_risk : ℚ
  overall_risk : ℚ

/-- External inputs of one `generate_recommendations` call: the weather and
soil responses, the (irrational, hence abstracted) `np.std` of the monthly
rainfall averages, the two `np.random.normal` streams drawn inside
`get_climate_projections` (indexed by year offset), and `datetime.now().year`. -/
structure World where
  weather : WeatherPatterns
  soil : Option SoilData
  std_avg_rainfall : ℚ
  noiseT : ℕ → ℚ
  noiseP : ℕ → ℚ
  current_year : ℤ

/-- `ClimateProjectionService.get_climate_projections`: one projection per year
offset `1..years_ahead`, each perturbed by fresh `np.random.normal` draws.
With `ml = false` the first draw raises and the handler returns `[]`. -/
def get_climate_projections (ml : Bool) (current_year : ℤ) (years_ahead : ℤ)
    (noiseT noiseP : ℕ → ℚ) : List ClimateProjection :=
  if ¬ml then []
  else
    (List.range years_ahead.toNat).map (fun i =>
      let k : ℕ := i + 1
      { year := current_year + (k : ℤ)
      , temperature_change := (2/10) * (k : ℚ) + noiseT k
      , precipitation_change := -2 * (k : ℚ) + noiseP k
      , drought_prob := min (9/10) (5/100 + (2/100) * (k : ℚ))
      , flood_prob := min (8/10) (3/100 + (1/100) * (k : ℚ))
      , heat_wave_prob := min (9/10) (2/100 + (3/100) * (k : ℚ))
      , confidence_level := max (6/10) (9/10 - (2/100) * (k : ℚ)) })

/-- `ClimateProjectionService.calculate_climate_risks`: all-zero risks for an
empty projection list; with `ml = false` the `np.mean` calls raise and the
`except` handler returns the fixed dict; otherwise the weighted formulas. -/
def calculate_climate_risks (ml : Bool) (wp : WeatherPatterns)
    (projections : List ClimateProjection) : ClimateRisks :=
  if projections.isEmpty then ⟨0, 0, 0, 0, 0⟩
  else if ¬ml then ⟨1/2, 3/10, 4/10, 3/10, 4/10⟩
  else
    let avg_precip_change := npMean (projections.map ClimateProjection.precipitation_change)
    let drought_prob := npMean (projections.map ClimateProjection.drought_prob)
    let drought_risk := min 1 ((|avg_precip_change| / 20) * (1/2) + drought_prob * (1/2))
    let flood_prob := npMean (projections.map ClimateProjection.flood_prob)
    let rainfall_variability := (wp.annual_rainfall_variability).getD 0
    let flood_risk := min 1 (flood_prob * (7/10) + (rainfall_variability / 100) * (3/10))
    let avg_temp_change := npMean (projections.map ClimateProjection.temperature_change)
    let heat_wave_prob := npMean (projections.map ClimateProjection.heat_wave_prob)
    let temperature_stress_risk := min 1 ((avg_temp_change / 4) * (6/10) + heat_wave_prob * (4/10))
    let rainfall_variability_risk :=
      if wp.monthly.isEmpty then 0
      else min 1 (npMean (wp.monthly.map (fun m => m.rainfall_variability.getD 0)) / 50)
    { drought_risk := drought_risk
    , flood_risk := flood_risk
    , temperature_stress_risk := temperature_stress_risk
    , rainfall_variability_risk := rainfall_variability_risk
    , overall_risk :=
        drought_risk * (3/10) + flood_risk * (2/10) +
        temperature_stress_risk * (3/10) + rainfall_variability_risk * (2/10) }

/-- `_get_seasonal_key`: dict lookup with default `"wet_season_1"`. -/
def get_seasonal_key (season : String) : String :=
  match season with
  | "A" => "wet_season_1"
  | "B" => "wet_season_2"
  | "perennial" => "wet_season_1"
  | _ => "wet_season_1"

/-- `_calculate_rainfall_variability`: 0.3 when there is no monthly data; with
`ml = false` the `np.mean` call raises and the handler returns 0.3; otherwise
`np.std / np.mean` of the monthly rainfall averages (the irrational `np.std`
value is the input `std_avg_rainfall`), or 0.3 when the mean is not positive. -/
def calculate_rainfall_variability (ml : Bool) (wp : WeatherPatterns)
    (std_avg_rainfall : ℚ) : ℚ :=
  if wp.monthly.isEmpty then 3/10
  else
    let rainfall_values := wp.monthly.map (fun m => m.avg_rainfall.getD 0)
    if rainfall_values.isEmpty then 3/10
    else if ¬ml then 3/10
    else if npMean rainfall_values > 0 then std_avg_rainfall / npMean rainfall_values
    else 3/10

/-- An empty seasonal dict entry (`weather_patterns.get("seasonal",
{}).get(key, {})` when the key is missing). -/
def empty_seasonal_entry : SeasonalEntry :=
  { avg_temp := none, extreme_max := none, extreme_min := none, avg_humidity := none }

/-- The `try` body of `_analyze_environmental_conditions` (lines 238–273). -/
def analyze_environmental_conditions (ml : Bool) (w : World) (farm : Farm)
    (season : String) (year : ℤ) : EnvironmentalConditions :=
  let projections := get_climate_projections ml w.current_year (year - w.current_year) w.noiseT w.noiseP
  let climate_risks := calculate_climate_risks ml w.weather projections
  let seasonal_data := (w.weather.seasonal (get_seasonal_key season)).getD empty_seasonal_entry
  { temperature_avg := seasonal_data.avg_temp.getD 25
  , temperature_range := seasonal_data.extreme_max.getD 30 - seasonal_data.extreme_min.getD 20
  , annual_rainfall := w.weather.annual_total_rainfall.getD 1200
  , rainfall_variability := calculate_rainfall_variability ml w.weather w.std_avg_rainfall
  , humidity_avg := seasonal_data.avg_humidity.getD 70
  , soil_ph := match w.soil with | some s => s.ph_level | none => 65/10
  , soil_organic_matter := match w.soil with | some s => s.organic_matter | none => 25/10
  , soil_nitrogen := match w.soil with | some s => s.nitrogen | none => 25
  , soil_phosphorus := match w.soil with | some s => s.phosphorus | none => 20
  , soil_potassium := match w.soil with | some s => s.potassium | none => 120
  , soil_texture_score := texture_to_score (match w.soil with | some s => s.texture | none => "loam")
  , drainage_score := drainage_to_score (match w.soil with | some s => s.drainage | none => "good")
  , altitude := pyOr farm.elevation 1200
  , climate_risk_score := climate_risks.overall_risk }

/-- `generate_recommendations` (lines 211–234): environmental analysis, one
compatibility analysis per seed, stable sort by score descending, top 10. -/
def generate_recommendations (ml trained : Bool) (ml_predict : Option ℚ)
    (w : World) (farm : Farm) (seeds : List Seed) (season : String) (year : ℤ)
    (preferences : Option Preferences) : List SeedCompatibility :=
  generate_recommendations_with (Except.ok
    (generate_recommendations_from_env ml trained ml_predict
      (analyze_environmental_conditions ml w farm season year) seeds preferences))

/-! ### The engine object and its training entry point -/

/-- The mutable attributes of `SeedRecommendationEngine` (the service handles
are stateless and omitted; `models`/`scalers` are represented by their key
sets, the only part of them the fallback path can observe). -/
structure Engine where
  models : List String
  scalers : List String
  is_trained : Bool
  use_fallback : Bool
  feature_weights : FeatureWeights
deriving DecidableEq

/-- `__init__` together with `_initialize_models`: no models or scalers when ML
is unavailable, `use_fallback = not ML_AVAILABLE`, untrained. -/
def init_engine (ml : Bool) : Engine :=
  { models :=
      if ml then ["yield_predictor", "climate_compatibility", "soil_compatibility", "risk_predictor"]
      else []
  , scalers := if ml then ["environmental", "seed_features", "yield_features"] else []
  , is_trained := false
  , use_fallback := ¬ml
  , feature_weights := feature_weights }

/-- The value `train_models` returns: the skipped/fallback status dict, a
performance-metrics dict, or the empty dict of the `except` path. -/
inductive TrainResult where
  | skipped (fallback_mode : Bool)
  | performance (metrics : List (String × ℚ))
  | failed
deriving DecidableEq

/-- `train_models`: with ML unavailable it returns the skipped/fallback status
without touching the engine; the sklearn training itself is not embeddable, so
its outcome is the abstract input `outcome` (`none` = exception → empty dict,
engine untrained; `some m` = success → metrics, `is_trained` set). -/
def train_models (ml : Bool) (e : Engine) (outcome : Option (List (String × ℚ))) :
    TrainResult × Engine :=
  if ¬ml then (TrainResult.skipped true, e)
  else
    match outcome with
    | some m => (TrainResult.performance m, { e with is_trained := true })
    | none => (TrainResult.failed, e)

/-- `generate_recommendations` viewed as a method: it reads `e.is_trained` and
assigns no attribute, so the returned engine is the input engine. -/
def generate_recommendations_engine (e : Engine) (ml : Bool) (ml_predict : Option ℚ)
    (w : World) (farm : Farm) (seeds : List Seed) (season : String) (year : ℤ)
    (preferences : Option Preferences) : List SeedCompatibility × Engine :=
  (generate_recommendations ml e.is_trained ml_predict w farm seeds season year preferences, e)

/-! ### Route declarations and authentication (`api/farms.py`, `api/seeds.py`)

`api/auth.py` is not part of the sources; only the route declarations that use
it are.  Each route is recorded with whether its handler declares the
`Depends(get_current_active_user)` parameter and whether its queries filter by
`owner_id == current_user.id` (or set `owner_id` on create). -/

structure User where
  id : ℤ
  is_active : Bool
deriving DecidableEq

structure RouteSpec where
  method : String
  path : String
  requires_auth : Bool
  owner_scoped : Bool
deriving DecidableEq

/-- The routes of `api/farms.py`, in source order. -/
def farm_routes : List RouteSpec :=
  [ ⟨"POST", "/", true, true⟩
  , ⟨"GET", "/", true, true⟩
  , ⟨"GET", "/farm_id", true, true⟩
  , ⟨"PUT", "/farm_id", true, true⟩
  , ⟨"DELETE", "/farm_id", true, true⟩
  , ⟨"POST", "/farm_id/soil-profiles", true, true⟩
  , ⟨"GET", "/farm_id/soil-profiles", true, true⟩
  , ⟨"POST", "/farm_id/climate-records", true, true⟩
  , ⟨"GET", "/farm_id/climate-records", true, true⟩
  , ⟨"POST", "/farm_id/crop-cycles", true, true⟩
  , ⟨"GET", "/farm_id/crop-cycles", true, true⟩
  , ⟨"GET", "/farm_id/dashboard", true, true⟩ ]

/-- The routes of `api/seeds.py`, in source order: none of their handlers
declares the current-user dependency. -/
def seed_routes : List RouteSpec :=
  [ ⟨"GET", "/", false, false⟩
  , ⟨"GET", "/search", false, false⟩
  , ⟨"GET", "/seed_id", false, false⟩
  , ⟨"GET", "/crop-types/available", false, false⟩
  , ⟨"GET", "/seed_id/characteristics", false, false⟩
  , ⟨"GET", "/seed_id/suitability", false, false⟩
  , ⟨"GET", "/seed_id/market-data", false, false⟩
  , ⟨"GET", "/compare/seed_id1/seed_id2", false, false⟩ ]

/-- Modelled from the spec: `api/auth.py` (absent from the sources) supplies
`get_current_active_user`, which FastAPI runs before the handler; per the spec
the endpoints are "guarded by token authentication", so a request without a
valid token on a route that declares the dependency is rejected (HTTP 401)
before the handler body — and hence any database access — runs. -/
def dispatch {α β : Type} (r : RouteSpec) (auth : Option User)
    (handler : α → β) (d : α) : Except ℕ β :=
  if r.requires_auth then
    match auth with
    | none => Except.error 401
    | some _ => Except.ok (handler d)
  else Except.ok (handler d)

/-- The query of `get_my_farms`: `db.query(Farm).filter(Farm.owner_id ==
current_user.id).all()`. -/
def get_my_farms (uid : ℤ) (farms : List Farm) : List Farm :=
  farms.filter (fun f => f.owner_id == uid)

/-- The ownership query shared by the farm detail routes: `db.query(Farm)
.filter(Farm.id == farm_id, Farm.owner_id == current_user.id).first()`. -/
def get_farm_query (uid farm_id : ℤ) (farms : List Farm) : Option Farm :=
  (farms.filter (fun f => f.id == farm_id && f.owner_id == uid)).head?

/-! ### The POST `/api/recommendations/` endpoint (`api/recommendations.py`) -/

/-- The `SeedRecommendation` row constructed by the endpoint (the
`recommendation_date=datetime.utcnow()` column is wall-clock time and
omitted). -/
structure RecRow where
  farm_id : ℤ
  seed_id : ℤ
  season : String
  year : ℤ
  suitability_score : ℚ
  climate_match_score : ℚ
  soil_match_score : ℚ
  risk_score : ℚ
  confidence_level : ℚ
  expected_yield : ℚ
  reasoning : List String
deriving DecidableEq

/-- `db_rec = SeedRecommendation(...)` (lines 141–154). -/
def to_row (farm_id : ℤ) (season : String) (year : ℤ) (rec : SeedCompatibility) : RecRow :=
  { farm_id := farm_id
  , seed_id := rec.seed_id
  , season := season
  , year := year
  , suitability_score := rec.compatibility_score
  , climate_match_score := rec.climate_match_score
  , soil_match_score := rec.soil_match_score
  , risk_score := rec.risk_score
  , confidence_level := rec.confidence_level
  , expected_yield := rec.yield_prediction
  , reasoning := rec.reasons }

/-- The response entry appended to `db_recommendations` (lines 157–183); the
constant fertilizer/pest dicts are omitted, the rest is kept. -/
structure RespRow where
  id : ℤ
  seed_id : ℤ
  seed_name : String
  crop_type : String
  suitability_score : ℚ
  climate_match_score : ℚ
  soil_match_score : ℚ
  market_potential_score : ℚ
  risk_score : ℚ
  confidence_level : ℚ
  expected_yield : ℚ
  reasons : List String
  risk_factors : List String
  planting_window_start : String
  planting_window_end : String
  seed_rate : ℚ
deriving DecidableEq

/-- One response entry for a recommendation and its seed. -/
def build_response (year : ℤ) (seed : Seed) (rec : SeedCompatibility) : RespRow :=
  { id := 0
  , seed_id := rec.seed_id
  , seed_name := seed.variety_name
  , crop_type := seed.crop_type
  , suitability_score := rec.compatibility_score
  , climate_match_score := rec.climate_match_score
  , soil_match_score := rec.soil_match_score
  , market_potential_score := 7/10
  , risk_score := rec.risk_score
  , confidence_level := rec.confidence_level
  , expected_yield := rec.yield_prediction
  , reasons := rec.reasons
  , risk_factors := ["Climate variability", "Market fluctuations"]
  , planting_window_start := toString year ++ "-03-01"
  , planting_window_end := toString year ++ "-04-30"
  , seed_rate := if truthy seed.yield_potential then seed.yield_potential.getD 0 * (1/10) else 25 }

/-- The response-building loop (lines 138–183) viewed through its
per-recommendation `next(s for s in available_seeds if s.id == rec.seed_id)`
lookups: the first failing lookup is a `StopIteration` (an exception inside
the `try`), modelled as `none`. -/
def build_responses (seeds : List Seed) (year : ℤ) :
    List SeedCompatibility → Option (List RespRow)
  | [] => some []
  | rec :: rest =>
    match seeds.find? (fun s => s.id == rec.seed_id) with
    | none => none
    | some s => (build_responses seeds year rest).map (fun tail => build_response year s rec :: tail)

/-- An ORM session: rows already committed and rows pending (`db.add`ed but not
yet committed). -/
structure DbSession where
  committed : List RecRow
  pending : List RecRow
deriving DecidableEq

/-- `db.add` for each row of a list. -/
def add_all (db : DbSession) (rows : List RecRow) : DbSession :=
  { db with pending := db.pending ++ rows }

/-- `db.commit()`: pending rows become durable. -/
def commit_db (db : DbSession) : DbSession :=
  { committed := db.committed ++ db.pending, pending := [] }

/-- `db.rollback()`: pending rows are discarded. -/
def rollback_db (db : DbSession) : DbSession :=
  { committed := db.committed, pending := [] }

/-- `get_recommendations` (POST, lines 90–194).  `farm_result` is the outcome
of the ownership query; `seeds` the availability query result; `fail_at k`
injects an exception inside the `try` block after `k` of the `db.add` calls
(every real failure point — the engine call, the seed lookup, a `db.add` —
happens before `db.commit()`, and `db.rollback()` discards whatever prefix of
the adds was reached). -/
def post_recommendations (ml trained : Bool) (ml_predict : Option ℚ) (w : World)
    (farm_result : Option Farm) (seeds : List Seed) (farm_id : ℤ)
    (season : String) (year : ℤ) (prefs : Preferences) (fail_at : Option ℕ)
    (db : DbSession) : DbSession × Except ℕ (List RespRow) :=
  match farm_result with
  | none => (db, Except.error 404)
  | some farm =>
    if seeds.isEmpty then (rollback_db db, Except.error 500)
    else
      let recs := generate_recommendations ml trained ml_predict w farm seeds season year (some prefs)
      let rows := recs.map (to_row farm_id season year)
      match fail_at with
      | some k => (rollback_db (add_all db (rows.take k)), Except.error 500)
      | none =>
        match build_responses seeds year recs with
        | none => (rollback_db (add_all db rows), Except.error 500)
        | some resp => (commit_db (add_all db rows), Except.ok resp)

/-! ### Shared lemmas -/

lemma clamp01_nonneg (x : ℚ) : 0 ≤ min 1 (max 0 x) :=
  le_min (by norm_num) (le_max_left 0 x)

lemma clamp01_le_one (x : ℚ) : min 1 (max 0 x) ≤ 1 :=
  min_le_left 1 _

lemma calculate_risk_score_bounds (ml : Bool) (seed : Seed)
    (env : EnvironmentalConditions) :
    0 ≤ calculate_risk_score ml seed env ∧ calculate_risk_score ml seed env ≤ 1 := by
  unfold calculate_risk_score
  split_ifs
  · exact ⟨clamp01_nonneg _, clamp01_le_one _⟩
  · norm_num

lemma calculate_confidence_level_bounds (trained : Bool)
    (env : EnvironmentalConditions) (seed : Seed) :
    3/10 ≤ calculate_confidence_level trained env seed ∧
      calculate_confidence_level trained env seed ≤ 1 := by
  unfold calculate_confidence_level
  split_ifs <;> constructor <;> norm_num

lemma analyze_seed_body_seed_id (ml trained : Bool) (ml_predict : Option ℚ)
    (seed : Seed) (env : EnvironmentalConditions) (preferences : Option Preferences) :
    (analyze_seed_body ml trained ml_predict seed env preferences).seed_id = seed.id := rfl

lemma analyze_seed_compatibility_eq_body (ml trained : Bool) (ml_predict : Option ℚ)
    (seed : Seed) (env : EnvironmentalConditions) (preferences : Option Preferences) :
    analyze_seed_compatibility ml trained ml_predict seed env preferences =
      analyze_seed_body ml trained ml_predict seed env preferences := rfl

/-! ### C4 -/

/-- C4: for positive range bounds, `_score_range_compatibility` is total and
returns a score in [0, 1]; the score is exactly 1 iff the value lies within
`[min_val, max_val]`; below the range it is `1 - (min_val - value)/min_val`
floored at 0, and above the range (the `else` branch, reached when
`min_val ≤ value`) it is `1 - (value - max_val)/max_val` floored at 0. -/
theorem c4_score_range_compatibility (value min_val max_val : ℚ)
    (hmin : 0 < min_val) (hmax : 0 < max_val) :
    (0 ≤ score_range_compatibility value min_val max_val ∧
      score_range_compatibility value min_val max_val ≤ 1) ∧
    (score_range_compatibility value min_val max_val = 1 ↔
      min_val ≤ value ∧ value ≤ max_val) ∧
    (value < min_val →
      score_range_compatibility value min_val max_val =
        max 0 (1 - (min_val - value) / min_val)) ∧
    (min_val ≤ value → max_val < value →
      score_range_compatibility value min_val max_val =
        max 0 (1 - (value - max_val) / max_val)) := by
  unfold score_range_compatibility
  split_ifs with h1 h2
  · refine ⟨⟨by norm_num, le_refl 1⟩, ⟨fun _ => h1, fun _ => rfl⟩, ?_, ?_⟩
    · intro hlt
      exact absurd h1.1 (not_le.mpr hlt)
    · intro _ hgt
      exact absurd h1.2 (not_le.mpr hgt)
  · have hpos : 0 < (min_val - value) / min_val := div_pos (by linarith) hmin
    have hlt1 : max 0 (1 - (min_val - value) / min_val) < 1 :=
      max_lt (by norm_num) (by linarith)
    refine ⟨⟨le_max_left 0 _, le_of_lt hlt1⟩, ?_, fun _ => rfl, ?_⟩
    · constructor
      · intro heq
        exact absurd heq (ne_of_lt hlt1)
      · intro hin
        exact absurd hin.1 (not_le.mpr h2)
    · intro hge _
      exact absurd hge (not_le.mpr h2)
  · have hge : min_val ≤ value := not_lt.mp h2
    have hgt : max_val < value := by
      by_contra hc
      exact h1 ⟨hge, not_lt.mp hc⟩
    have hpos : 0 < (value - max_val) / max_val := div_pos (by linarith) hmax
    have hlt1 : max 0 (1 - (value - max_val) / max_val) < 1 :=
      max_lt (by norm_num) (by linarith)
    refine ⟨⟨le_max_left 0 _, le_of_lt hlt1⟩, ?_, ?_, fun _ _ => rfl⟩
    · constructor
      · intro heq
        exact absurd heq (ne_of_lt hlt1)
      · intro hin
        exact absurd hgt (not_lt.mpr hin.2)
    · intro hlt
      exact absurd hge (not_le.mpr hlt)

/-- Witness for C4 at `value = 35`, `min_val = 18`, `max_val = 30`. -/
theorem c4_witness :
    (0 : ℚ) < 18 ∧ (0 : ℚ) < 30 ∧
    ((0 ≤ score_range_compatibility 35 18 30 ∧
        score_range_compatibility 35 18 30 ≤ 1) ∧
      (score_range_compatibility 35 18 30 = 1 ↔ (18 : ℚ) ≤ 35 ∧ (35 : ℚ) ≤ 30) ∧
      ((35 : ℚ) < 18 →
        score_range_compatibility 35 18 30 = max 0 (1 - (18 - 35) / 18)) ∧
      ((18 : ℚ) ≤ 35 → (30 : ℚ) < 35 →
        score_range_compatibility 35 18 30 = max 0 (1 - (35 - 30) / 30))) :=
  ⟨by norm_num, by norm_num,
    c4_score_range_compatibility 35 18 30 (by norm_num) (by norm_num)⟩

/-! ### C5 -/

/-- C5: an exception inside `_analyze_seed_compatibility` is not propagated:
the `except` handler returns the fixed neutral record (all 0.5 scores,
confidence 0.3, the seed's yield potential or 1.0 as yield, the single reason
"Analysis error occurred"); and an exception escaping the whole
`generate_recommendations` pipeline yields the empty list. -/
theorem c5_exception_fallbacks (seed : Seed) (err1 err2 : String) :
    analyze_seed_with seed (Except.error err1) =
      { seed_id := seed.id
      , compatibility_score := 1/2
      , climate_match_score := 1/2
      , soil_match_score := 1/2
      , yield_prediction := pyOr seed.yield_potential 1
      , risk_score := 1/2
      , confidence_level := 3/10
      , reasons := ["Analysis error occurred"] } ∧
    generate_recommendations_with (Except.error err2) = [] :=
  ⟨rfl, rfl⟩

/-! ### C3 -/

/-- C3: the overall compatibility score of `_analyze_seed_compatibility` is the
weighted sum of the sub-scores recorded in the result — weights 0.3 (climate),
0.25 (soil), 0.2 (yield prediction over the seed's yield potential, the divisor
defaulting to 1 when the yield potential is absent, i.e. `None` — Python's
`or` also defaults a 0.0 value), 0.15 (one minus risk) and 0.1 (market) —
clamped into [0, 1]; and the engine's feature weights sum to 1. -/
theorem c3_compatibility_weighted_sum (ml trained : Bool) (ml_predict : Option ℚ)
    (seed : Seed) (env : EnvironmentalConditions) (preferences : Option Preferences) :
    (analyze_seed_compatibility ml trained ml_predict seed env preferences).compatibility_score =
      min 1 (max 0 (
        (3/10) * (analyze_seed_compatibility ml trained ml_predict seed env preferences).climate_match_score +
        (25/100) * (analyze_seed_compatibility ml trained ml_predict seed env preferences).soil_match_score +
        (2/10) * ((analyze_seed_compatibility ml trained ml_predict seed env preferences).yield_prediction /
          pyOr seed.yield_potential 1) +
        (15/100) * (1 - (analyze_seed_compatibility ml trained ml_predict seed env preferences).risk_score) +
        (1/10) * calculate_market_score seed preferences)) ∧
    feature_weights.climate_compatibility + feature_weights.soil_compatibility +
      feature_weights.yield_potential + feature_weights.risk_tolerance +
      feature_weights.market_factors = 1 := by
  constructor
  · simp only [analyze_seed_compatibility, analyze_seed_with, analyze_seed_body, feature_weights]
    congr 2
    ring
  · norm_num [feature_weights]

/-! ### C2 -/

/-- C2: with the ML packages unavailable the engine initializes in fallback
mode (`use_fallback = true`), `train_models` skips training and returns the
skipped/fallback status leaving the engine untouched, and the yield recorded
for every analyzed seed is the hand-written estimate: yield potential times
(0.4·climate score + 0.4·soil score + 0.2·(1 − risk score)), the scores being
the sub-scores of the returned record. -/
theorem c2_fallback_mode (e : Engine) (outcome : Option (List (String × ℚ)))
    (trained : Bool) (ml_predict : Option ℚ) (seed : Seed)
    (env : EnvironmentalConditions) (preferences : Option Preferences) (v : ℚ)
    (hv : seed.yield_potential = some v) (hv0 : v ≠ 0) :
    (init_engine false).use_fallback = true ∧
    train_models false e outcome = (TrainResult.skipped true, e) ∧
    (analyze_seed_compatibility false trained ml_predict seed env preferences).yield_prediction =
      v * ((4/10) * (analyze_seed_compatibility false trained ml_predict seed env preferences).climate_match_score +
           (4/10) * (analyze_seed_compatibility false trained ml_predict seed env preferences).soil_match_score +
           (2/10) * (1 - (analyze_seed_compatibility false trained ml_predict seed env preferences).risk_score)) := by
  refine ⟨rfl, rfl, ?_⟩
  simp only [analyze_seed_compatibility, analyze_seed_with, analyze_seed_body,
    predict_yield, estimate_yield_simple, pyOr, hv, hv0, if_false, Bool.not_false,
    Bool.false_eq_true, not_false_eq_true, true_or, if_true]
  split_ifs <;> ring

/-- Witness for C2: a seed with yield potential 3. -/
def sampleSeed : Seed :=
  { id := 1
  , variety_name := "NAROCASS 1"
  , crop_type := "maize"
  , yield_potential := some 3
  , drought_tolerance := 1
  , flood_tolerance := 0
  , heat_tolerance := 0
  , cold_tolerance := 0
  , preferred_ph_min := none
  , preferred_ph_max := none
  , nitrogen_requirement := none
  , phosphorus_requirement := none
  , potassium_requirement := none
  , min_rainfall := none
  , max_rainfall := none
  , optimal_temp_min := none
  , optimal_temp_max := none
  , altitude_min := none
  , altitude_max := none
  , market_demand := none
  , is_available := true }

/-- The default environmental conditions of the `except` branch of
`_analyze_environmental_conditions` (lines 278–284), reused as a sample input. -/
def sampleEnv : EnvironmentalConditions :=
  { temperature_avg := 25
  , temperature_range := 10
  , annual_rainfall := 1200
  , rainfall_variability := 3/10
  , humidity_avg := 70
  , soil_ph := 65/10
  , soil_organic_matter := 25/10
  , soil_nitrogen := 25
  , soil_phosphorus := 20
  , soil_potassium := 120
  , soil_texture_score := 7/10
  , drainage_score := 7/10
  , altitude := 1200
  , climate_risk_score := 3/10 }

theorem c2_witness :
    sampleSeed.yield_potential = some 3 ∧ (3 : ℚ) ≠ 0 ∧
    ((init_engine false).use_fallback = true ∧
      train_models false (init_engine false) none = (TrainResult.skipped true, init_engine false) ∧
      (analyze_seed_compatibility false false none sampleSeed sampleEnv none).yield_prediction =
        3 * ((4/10) * (analyze_seed_compatibility false false none sampleSeed sampleEnv none).climate_match_score +
             (4/10) * (analyze_seed_compatibility false false none sampleSeed sampleEnv none).soil_match_score +
             (2/10) * (1 - (analyze_seed_compatibility false false none sampleSeed sampleEnv none).risk_score))) :=
  ⟨rfl, by norm_num,
    c2_fallback_mode (init_engine false) none false none sampleSeed sampleEnv none 3 rfl (by norm_num)⟩

/-! ### C9 -/

/-- C9: every record `_analyze_seed_compatibility` produces — on the success
path (the `try` body) or on the per-seed error path — has
`compatibility_score ∈ [0, 1]`, `risk_score ∈ [0, 1]` and
`confidence_level ∈ [0.3, 1]`. -/
theorem c9_field_bounds (ml trained : Bool) (ml_predict : Option ℚ) (seed : Seed)
    (env : EnvironmentalConditions) (preferences : Option Preferences)
    (body : Except String SeedCompatibility)
    (h : body = Except.ok (analyze_seed_body ml trained ml_predict seed env preferences) ∨
      ∃ e, body = Except.error e) :
    (0 ≤ (analyze_seed_with seed body).compatibility_score ∧
      (analyze_seed_with seed body).compatibility_score ≤ 1) ∧
    (0 ≤ (analyze_seed_with seed body).risk_score ∧
      (analyze_seed_with seed body).risk_score ≤ 1) ∧
    (3/10 ≤ (analyze_seed_with seed body).confidence_level ∧
      (analyze_seed_with seed body).confidence_level ≤ 1) := by
  rcases h with h | ⟨e, h⟩ <;> subst h
  · simp only [analyze_seed_with, analyze_seed_body]
    exact ⟨⟨clamp01_nonneg _, clamp01_le_one _⟩,
      calculate_risk_score_bounds ml seed env,
      calculate_confidence_level_bounds trained env seed⟩
  · simp only [analyze_seed_with, analyze_seed_error_result]
    norm_num

/-- Witness for C9 on the error path for `sampleSeed`. -/
theorem c9_witness :
    ((Except.error "boom" : Except String SeedCompatibility) =
        Except.ok (analyze_seed_body false false none sampleSeed sampleEnv none) ∨
      ∃ e, (Except.error "boom" : Except String SeedCompatibility) = Except.error e) ∧
    ((0 ≤ (analyze_seed_with sampleSeed (Except.error "boom")).compatibility_score ∧
        (analyze_seed_with sampleSeed (Except.error "boom")).compatibility_score ≤ 1) ∧
      (0 ≤ (analyze_seed_with sampleSeed (Except.error "boom")).risk_score ∧
        (analyze_seed_with sampleSeed (Except.error "boom")).risk_score ≤ 1) ∧
      (3/10 ≤ (analyze_seed_with sampleSeed (Except.error "boom")).confidence_level ∧
        (analyze_seed_with sampleSeed (Except.error "boom")).confidence_level ≤ 1)) :=
  ⟨Or.inr ⟨"boom", rfl⟩,
    c9_field_bounds false false none sampleSeed sampleEnv none _ (Or.inr ⟨"boom", rfl⟩)⟩

/-! ### C1 -/

/-- C1: `generate_recommendations` analyzes every seed of the input list,
sorts by compatibility score in non-increasing order, truncates to at most 10
entries (so the output length is `min n 10`), and every `seed_id` of the
output is the id of some input seed. -/
theorem c1_generate_recommendations_shape (ml trained : Bool) (ml_predict : Option ℚ)
    (w : World) (farm : Farm) (seeds : List Seed) (season : String) (year : ℤ)
    (preferences : Option Preferences) :
    (generate_recommendations ml trained ml_predict w farm seeds season year preferences).length
        = min seeds.length 10 ∧
    List.Sorted recGE
      (generate_recommendations ml trained ml_predict w farm seeds season year preferences) ∧
    ∀ r ∈ generate_recommendations ml trained ml_predict w farm seeds season year preferences,
      r.seed_id ∈ seeds.map Seed.id := by
  have hdef : generate_recommendations ml trained ml_predict w farm seeds season year preferences
      = (List.insertionSort recGE (analyze_all ml trained ml_predict
          (analyze_environmental_conditions ml w farm season year) seeds preferences)).take 10 := rfl
  have hperm := List.perm_insertionSort recGE (analyze_all ml trained ml_predict
    (analyze_environmental_conditions ml w farm season year) seeds preferences)
  refine ⟨?_, ?_, ?_⟩
  · rw [hdef, List.length_take, hperm.length_eq, analyze_all, List.length_map, Nat.min_comm]
  · rw [hdef]
    exact (List.sorted_insertionSort recGE _).sublist (List.take_sublist 10 _)
  · intro r hr
    rw [hdef] at hr
    have hr2 : r ∈ analyze_all ml trained ml_predict
        (analyze_environmental_conditions ml w farm season year) seeds preferences :=
      hperm.mem_iff.mp (List.mem_of_mem_take hr)
    rw [analyze_all] at hr2
    obtain ⟨s, hs, rfl⟩ := List.mem_map.mp hr2
    rw [analyze_seed_compatibility_eq_body, analyze_seed_body_seed_id]
    exact List.mem_map_of_mem Seed.id hs

/-- Sample external inputs for witnesses: empty weather dicts, no soil record,
zero noise streams. -/
def sampleWeather : WeatherPatterns :=
  { seasonal := fun _ => none
  , monthly := []
  , annual_total_rainfall := none
  , annual_rainfall_variability := none }

def sampleWorld : World :=
  { weather := sampleWeather
  , soil := none
  , std_avg_rainfall := 0
  , noiseT := fun _ => 0
  , noiseP := fun _ => 0
  , current_year := 2025 }

def sampleFarm : Farm :=
  { id := 1, owner_id := 7, latitude := 0, longitude := 32, elevation := none }

/-- Witness for C1 on a one-seed list. -/
theorem c1_witness :
    (generate_recommendations true false none sampleWorld sampleFarm [sampleSeed] "A" 2026 none).length
        = min [sampleSeed].length 10 ∧
    List.Sorted recGE
      (generate_recommendations true false none sampleWorld sampleFarm [sampleSeed] "A" 2026 none) ∧
    ∀ r ∈ generate_recommendations true false none sampleWorld sampleFarm [sampleSeed] "A" 2026 none,
      r.seed_id ∈ [sampleSeed].map Seed.id :=
  c1_generate_recommendations_shape true false none sampleWorld sampleFarm [sampleSeed] "A" 2026 none

/-! ### C8 -/

/-- C8: the scoring pipeline is stateless and single-pass — a
`generate_recommendations` call returns the engine object unchanged
(`feature_weights`, `models`, `scalers`, `is_trained`, `use_fallback` keep
their values), the analysis loop visits position `i` of the seed list exactly
once (its `i`-th result is the analysis of the `i`-th seed), and the result is
that list sorted and truncated. -/
theorem c8_stateless_single_pass (e : Engine) (ml : Bool) (ml_predict : Option ℚ)
    (w : World) (farm : Farm) (seeds : List Seed) (season : String) (year : ℤ)
    (preferences : Option Preferences) :
    (generate_recommendations_engine e ml ml_predict w farm seeds season year preferences).2 = e ∧
    (generate_recommendations_engine e ml ml_predict w farm seeds season year preferences).2.feature_weights
        = e.feature_weights ∧
    (generate_recommendations_engine e ml ml_predict w farm seeds season year preferences).2.models
        = e.models ∧
    (generate_recommendations_engine e ml ml_predict w farm seeds season year preferences).2.scalers
        = e.scalers ∧
    (generate_recommendations_engine e ml ml_predict w farm seeds season year preferences).2.is_trained
        = e.is_trained ∧
    (generate_recommendations_engine e ml ml_predict w farm seeds season year preferences).2.use_fallback
        = e.use_fallback ∧
    (analyze_all ml e.is_trained ml_predict
        (analyze_environmental_conditions ml w farm season year) seeds preferences).length
        = seeds.length ∧
    (∀ i : ℕ,
      (analyze_all ml e.is_trained ml_predict
          (analyze_environmental_conditions ml w farm season year) seeds preferences)[i]?
        = (seeds[i]?).map (fun s => analyze_seed_compatibility ml e.is_trained ml_predict s
            (analyze_environmental_conditions ml w farm season year) preferences)) ∧
    (generate_recommendations_engine e ml ml_predict w farm seeds season year preferences).1
        = (List.insertionSort recGE (analyze_all ml e.is_trained ml_predict
            (analyze_environmental_conditions ml w farm season year) seeds preferences)).take 10 := by
  refine ⟨rfl, rfl, rfl, rfl, rfl, rfl, ?_, ?_, rfl⟩
  · simp [analyze_all]
  · intro i
    simp [analyze_all]

/-! ### C6 -/

/-- A second world differing from `sampleWorld` only in one
`np.random.normal` draw of `get_climate_projections`. -/
def sampleWorldShifted : World :=
  { sampleWorld with noiseP := fun _ => 20 }

lemma get_climate_projections_congr (ml : Bool) (cy ya : ℤ)
    (n1T n1P n2T n2P : ℕ → ℚ)
    (hnoise : ∀ k : ℕ, 1 ≤ k → (k : ℤ) ≤ ya → n1T k = n2T k ∧ n1P k = n2P k) :
    get_climate_projections ml cy ya n1T n1P = get_climate_projections ml cy ya n2T n2P := by
  unfold get_climate_projections
  cases ml with
  | false => simp
  | true =>
    simp only [Bool.not_true, if_false]
    apply List.map_congr_left
    intro i hi
    have hik : i < ya.toNat := List.mem_range.mp hi
    have h0 : 0 ≤ ya := by
      by_contra hneg
      push_neg at hneg
      have hz : ya.toNat = 0 := Int.toNat_eq_zero.mpr (le_of_lt hneg)
      omega
    have hle : ((i + 1 : ℕ) : ℤ) ≤ ya := by
      have h1 : ((i + 1 : ℕ) : ℤ) ≤ (ya.toNat : ℤ) := by exact_mod_cast hik
      rwa [Int.toNat_of_nonneg h0] at h1
    obtain ⟨hT, hP⟩ := hnoise (i + 1) (by omega) hle
    simp [hT, hP]

/-- C6 (amended): the engine is deterministic up to its sampled randomness and
external data — two `generate_recommendations` calls with the same farm, seed
list, season, year and preferences return identical lists whenever the
external weather and soil responses agree and the `np.random.normal` streams
agree on the year offsets actually consumed by `get_climate_projections`. -/
theorem c6_amended_determinism (ml trained : Bool) (ml_predict : Option ℚ)
    (w1 w2 : World) (farm : Farm) (seeds : List Seed) (season : String) (year : ℤ)
    (preferences : Option Preferences)
    (hw : w1.weather = w2.weather) (hs : w1.soil = w2.soil)
    (hstd : w1.std_avg_rainfall = w2.std_avg_rainfall)
    (hcy : w1.current_year = w2.current_year)
    (hnoise : ∀ k : ℕ, 1 ≤ k → (k : ℤ) ≤ year - w1.current_year →
      w1.noiseT k = w2.noiseT k ∧ w1.noiseP k = w2.noiseP k) :
    generate_recommendations ml trained ml_predict w1 farm seeds season year preferences =
      generate_recommendations ml trained ml_predict w2 farm seeds season year preferences := by
  have hproj : get_climate_projections ml w1.current_year (year - w1.current_year) w1.noiseT w1.noiseP
      = get_climate_projections ml w2.current_year (year - w2.current_year) w2.noiseT w2.noiseP := by
    rw [← hcy]
    exact get_climate_projections_congr ml w1.current_year (year - w1.current_year)
      w1.noiseT w1.noiseP w2.noiseT w2.noiseP hnoise
  have henv : analyze_environmental_conditions ml w1 farm season year
      = analyze_environmental_conditions ml w2 farm season year := by
    unfold analyze_environmental_conditions
    rw [hproj, hw, hs, hstd]
  unfold generate_recommendations
  rw [henv]

/-- Witness for C6 (amended): equal streams. -/
theorem c6_amended_witness :
    generate_recommendations true false none sampleWorld sampleFarm [sampleSeed] "A" 2026 none =
      generate_recommendations true false none sampleWorld sampleFarm [sampleSeed] "A" 2026 none :=
  c6_amended_determinism true false none sampleWorld sampleWorld sampleFarm [sampleSeed] "A" 2026 none
    rfl rfl rfl rfl (fun _ _ _ => ⟨rfl, rfl⟩)

lemma maize_ne_rice : ("maize" : String) ≠ "rice" := by decide

/-- C6 counterexample: two calls of `generate_recommendations` with the same
farm, the same seed list, the same season, year and preferences, but distinct
`np.random.normal` draws inside `get_climate_projections`, return different
compatibility scores — the claim as stated is false. -/
theorem c6_counterexample :
    (generate_recommendations true false none sampleWorld sampleFarm [sampleSeed] "A" 2026 none).map
        SeedCompatibility.compatibility_score ≠
      (generate_recommendations true false none sampleWorldShifted sampleFarm [sampleSeed] "A" 2026 none).map
        SeedCompatibility.compatibility_score := by
  have hA : analyze_environmental_conditions true sampleWorld sampleFarm "A" 2026 =
      { temperature_avg := 25
      , temperature_range := 10
      , annual_rainfall := 1200
      , rainfall_variability := 3/10
      , humidity_avg := 70
      , soil_ph := 65/10
      , soil_organic_matter := 25/10
      , soil_nitrogen := 25
      , soil_phosphorus := 20
      , soil_potassium := 120
      , soil_texture_score := 1
      , drainage_score := 8/10
      , altitude := 1200
      , climate_risk_score := 461/10000 } := by
    norm_num [analyze_environmental_conditions, get_climate_projections,
      calculate_climate_risks, calculate_rainfall_variability, get_seasonal_key,
      empty_seasonal_entry, sampleWorld, sampleWeather, sampleFarm, npMean, pyOr,
      texture_to_score, drainage_to_score, List.range_succ, min_def, max_def, abs]
  have hB : analyze_environmental_conditions true sampleWorldShifted sampleFarm "A" 2026 =
      { temperature_avg := 25
      , temperature_range := 10
      , annual_rainfall := 1200
      , rainfall_variability := 3/10
      , humidity_avg := 70
      , soil_ph := 65/10
      , soil_organic_matter := 25/10
      , soil_nitrogen := 25
      , soil_phosphorus := 20
      , soil_potassium := 120
      , soil_texture_score := 1
      , drainage_score := 8/10
      , altitude := 1200
      , climate_risk_score := 1661/10000 } := by
    norm_num [analyze_environmental_conditions, get_climate_projections,
      calculate_climate_risks, calculate_rainfall_variability, get_seasonal_key,
      empty_seasonal_entry, sampleWorldShifted, sampleWorld, sampleWeather,
      sampleFarm, npMean, pyOr, texture_to_score, drainage_to_score,
      List.range_succ, min_def, max_def, abs]
  simp only [generate_recommendations, generate_recommendations_with,
    generate_recommendations_from_env, analyze_all, hA, hB, List.map_cons,
    List.map_nil, List.insertionSort, List.orderedInsert, List.take]
  norm_num [analyze_seed_compatibility, analyze_seed_with, analyze_seed_body,
    calculate_climate_compatibility, calculate_soil_compatibility,
    calculate_risk_score, estimate_yield_simple, predict_yield,
    calculate_market_score, calculate_confidence_level, generate_reasoning,
    npMean, truthy, pyOr, score_range_compatibility, requirement_to_score,
    texture_to_score, drainage_to_score, calculate_texture_compatibility,
    feature_weights, sampleSeed, min_def, max_def, abs, maize_ne_rice]

/-! ### C7 -/

/-- C7 counterexample: it is not the case that every farm and seed route
declares the authenticated-current-user dependency — the seed listing route
(`GET /`, `get_seeds`) declares none. -/
theorem c7_counterexample :
    ¬ (∀ r ∈ farm_routes ++ seed_routes, r.requires_auth = true) := by
  intro h
  have hmem : (⟨"GET", "/", false, false⟩ : RouteSpec) ∈ farm_routes ++ seed_routes :=
    List.mem_append_right farm_routes (by rw [seed_routes]; exact List.mem_cons_self _ _)
  exact Bool.false_ne_true (h _ hmem)

/-- C7 (amended): every farm CRUD route declares the authenticated-user
dependency and scopes its rows by `owner_id` (a request without a valid token
is rejected with 401 before the handler — and hence any database access —
runs), while the seed routes declare no user dependency; the farm queries
return only rows whose `owner_id` equals the authenticated user's id. -/
theorem c7_amended_route_auth :
    (∀ r, r ∈ farm_routes → r.requires_auth = true ∧ r.owner_scoped = true ∧
      ∀ (α β : Type) (handler : α → β) (d : α), dispatch r none handler d = Except.error 401) ∧
    (∀ r, r ∈ seed_routes → r.requires_auth = false) ∧
    (∀ (uid : ℤ) (farms : List Farm), ∀ f ∈ get_my_farms uid farms, f.owner_id = uid) ∧
    (∀ (uid fid : ℤ) (farms : List Farm) (f : Farm),
      get_farm_query uid fid farms = some f → f.owner_id = uid ∧ f.id = fid) := by
  refine ⟨?_, ?_, ?_, ?_⟩
  · intro r hr
    fin_cases hr <;> exact ⟨rfl, rfl, fun α β handler d => rfl⟩
  · intro r hr
    fin_cases hr <;> rfl
  · intro uid farms f hf
    rw [get_my_farms] at hf
    have h1 := List.of_mem_filter hf
    simpa using h1
  · intro uid fid farms f hf
    rw [get_farm_query] at hf
    have hmem : f ∈ farms.filter (fun x => x.id == fid && x.owner_id == uid) :=
      List.mem_of_mem_head? (Option.mem_def.mpr hf)
    have h1 := List.of_mem_filter hmem
    simp only [Bool.and_eq_true, beq_iff_eq] at h1
    exact ⟨h1.2, h1.1⟩

/-- Witness for C7 (amended): the farm-creation route is guarded and
owner-scoped, the seed-listing route is unguarded, and the ownership query on
a singleton table returns the owner's row. -/
theorem c7_amended_witness :
    ((⟨"POST", "/", true, true⟩ : RouteSpec).requires_auth = true ∧
      (⟨"POST", "/", true, true⟩ : RouteSpec).owner_scoped = true ∧
      ∀ (α β : Type) (handler : α → β) (d : α),
        dispatch ⟨"POST", "/", true, true⟩ none handler d = Except.error 401) ∧
    (⟨"GET", "/", false, false⟩ : RouteSpec).requires_auth = false ∧
    (sampleFarm.owner_id = 7 ∧ sampleFarm.id = 1) :=
  ⟨c7_amended_route_auth.1 ⟨"POST", "/", true, true⟩ (by rw [farm_routes]; exact List.mem_cons_self _ _),
    c7_amended_route_auth.2.1 ⟨"GET", "/", false, false⟩ (by rw [seed_routes]; exact List.mem_cons_self _ _),
    c7_amended_route_auth.2.2.2 7 1 [sampleFarm] sampleFarm rfl⟩

/-! ### C10 -/

lemma mem_generate_recommendations_seed_id (ml trained : Bool) (ml_predict : Option ℚ)
    (w : World) (farm : Farm) (seeds : List Seed) (season : String) (year : ℤ)
    (preferences : Option Preferences) (r : SeedCompatibility)
    (hr : r ∈ generate_recommendations ml trained ml_predict w farm seeds season year preferences) :
    r.seed_id ∈ seeds.map Seed.id := by
  have hperm := List.perm_insertionSort recGE (analyze_all ml trained ml_predict
    (analyze_environmental_conditions ml w farm season year) seeds preferences)
  have hr2 : r ∈ analyze_all ml trained ml_predict
      (analyze_environmental_conditions ml w farm season year) seeds preferences :=
    hperm.mem_iff.mp (List.mem_of_mem_take hr)
  rw [analyze_all] at hr2
  obtain ⟨s, hs, rfl⟩ := List.mem_map.mp hr2
  rw [analyze_seed_compatibility_eq_body, analyze_seed_body_seed_id]
  exact List.mem_map_of_mem Seed.id hs

lemma build_responses_eq_some (seeds : List Seed) (year : ℤ)
    (recs : List SeedCompatibility)
    (h : ∀ r ∈ recs, r.seed_id ∈ seeds.map Seed.id) :
    ∃ resp, build_responses seeds year recs = some resp := by
  induction recs with
  | nil => exact ⟨[], rfl⟩
  | cons r t ih =>
    obtain ⟨resp, hresp⟩ := ih (fun x hx => h x (List.mem_cons_of_mem _ hx))
    obtain ⟨s, hs, hsid⟩ := List.mem_map.mp (h r (List.mem_cons_self r t))
    have hfind : (seeds.find? (fun s2 => s2.id == r.seed_id)).isSome := by
      rw [List.find?_isSome]
      exact ⟨s, hs, by simp [hsid]⟩
    obtain ⟨s0, hs0⟩ := Option.isSome_iff_exists.mp hfind
    refine ⟨build_response year s0 r :: resp, ?_⟩
    rw [build_responses, hs0, hresp]
    rfl

/-- C10: the POST recommendations endpoint is atomic — on the success path it
commits exactly one `SeedRecommendation` row per recommendation returned by
the engine (appended to the previously committed rows), and on any exception
raised after the seeds are fetched (injected at any point `k`) it rolls the
session back and answers HTTP 500, leaving the committed rows unchanged. -/
theorem c10_post_atomicity (ml trained : Bool) (ml_predict : Option ℚ) (w : World)
    (farm : Farm) (seeds : List Seed) (farm_id : ℤ) (season : String) (year : ℤ)
    (prefs : Preferences) (db : DbSession)
    (hpend : db.pending = []) (hne : seeds.isEmpty = false) :
    ((post_recommendations ml trained ml_predict w (some farm) seeds farm_id season year prefs none db).1.committed
        = db.committed ++
          (generate_recommendations ml trained ml_predict w farm seeds season year (some prefs)).map
            (to_row farm_id season year) ∧
      ((generate_recommendations ml trained ml_predict w farm seeds season year (some prefs)).map
          (to_row farm_id season year)).length
        = (generate_recommendations ml trained ml_predict w farm seeds season year (some prefs)).length ∧
      ∃ resp,
        (post_recommendations ml trained ml_predict w (some farm) seeds farm_id season year prefs none db).2
          = Except.ok resp) ∧
    (∀ k : ℕ,
      (post_recommendations ml trained ml_predict w (some farm) seeds farm_id season year prefs (some k) db).1.committed
          = db.committed ∧
      (post_recommendations ml trained ml_predict w (some farm) seeds farm_id season year prefs (some k) db).2
          = Except.error 500) := by
  obtain ⟨resp, hresp⟩ := build_responses_eq_some seeds year
    (generate_recommendations ml trained ml_predict w farm seeds season year (some prefs))
    (fun r hr => mem_generate_recommendations_seed_id ml trained ml_predict w farm seeds season year
      (some prefs) r hr)
  refine ⟨⟨?_, List.length_map _ _, ⟨resp, ?_⟩⟩, ?_⟩
  · simp [post_recommendations, hne, hresp, commit_db, add_all, hpend]
  · simp [post_recommendations, hne, hresp]
  · intro k
    constructor <;> simp [post_recommendations, hne, rollback_db, add_all]

/-- Preferences as built by the endpoint for the witness call. -/
def samplePrefs : Preferences :=
  { budget_constraint := none
  , risk_tolerance := none
  , market_preference := none
  , include_experimental := false }

/-- Witness for C10 on an empty session and a one-seed table. -/
theorem c10_witness :
    (⟨[], []⟩ : DbSession).pending = [] ∧ [sampleSeed].isEmpty = false ∧
    (((post_recommendations false false none sampleWorld (some sampleFarm) [sampleSeed] 1 "A" 2026 samplePrefs none ⟨[], []⟩).1.committed
        = (⟨[], []⟩ : DbSession).committed ++
          (generate_recommendations false false none sampleWorld sampleFarm [sampleSeed] "A" 2026 (some samplePrefs)).map
            (to_row 1 "A" 2026) ∧
      ((generate_recommendations false false none sampleWorld sampleFarm [sampleSeed] "A" 2026 (some samplePrefs)).map
          (to_row 1 "A" 2026)).length
        = (generate_recommendations false false none sampleWorld sampleFarm [sampleSeed] "A" 2026 (some samplePrefs)).length ∧
      ∃ resp,
        (post_recommendations false false none sampleWorld (some sampleFarm) [sampleSeed] 1 "A" 2026 samplePrefs none ⟨[], []⟩).2
          = Except.ok resp) ∧
    (∀ k : ℕ,
      (post_recommendations false false none sampleWorld (some sampleFarm) [sampleSeed] 1 "A" 2026 samplePrefs (some k) ⟨[], []⟩).1.committed
          = (⟨[], []⟩ : DbSession).committed ∧
      (post_recommendations false false none sampleWorld (some sampleFarm) [sampleSeed] 1 "A" 2026 samplePrefs (some k) ⟨[], []⟩).2
          = Except.error 500)) :=
  ⟨rfl, rfl,
    c10_post_atomicity false false none sampleWorld sampleFarm [sampleSeed] 1 "A" 2026 samplePrefs
      ⟨[], []⟩ rfl rfl⟩

end SeedBank
